import Mathlib

/-!
Verification development for the fastapi-authentication repository.

This file gives a shallow embedding of the authentication/authorization core
of the repository (settings.py, utils/aes.py, models/auth/token.py,
models/auth/user.py, middleware/unified_auth_middleware.py,
middleware/permission.py, queryset/auth/user_route.py) and proves properties
of that embedding.

Modelling conventions:
 - Timestamps and durations are natural numbers counted in seconds
   (`datetime.datetime` values and `timedelta` values in the source).
   Every `datetime.utcnow()` call inside one operation is modelled by a
   single `now : Nat` parameter of that operation.
 - Database identifiers (`uuid.UUID` primary keys) are modelled as `Nat`.
 - The database tables are modelled as lists of records;
   `query(...).filter(...).first()` becomes `List.find?` and an ORM
   attribute mutation plus commit becomes an update of the list entry.
 - Randomness (`os.urandom`, `uuid.uuid4`) is made explicit: every random
   value consumed by an operation is a parameter of the embedded function.
 - Python exceptions become `Except` / `Option` results.
 - Byte strings are `List Nat` with entries < 256; text is `String`
   (all strings handled by the token pipeline are ASCII, so the bytes of
   `str.encode()` are the character codes).
-/

/-! ## settings.py -/

/-- A value stored in the `TOKEN_EXPIRE` configuration dictionary:
either a `timedelta` (in seconds) or the tuple of auth header types. -/
inductive ConfigVal where
  | duration (seconds : Nat)
  | headerTypes (ts : List String)
deriving DecidableEq

/-- settings.py: the literal `TOKEN_EXPIRE` dictionary.
`ACCESS_TOKEN_LIFETIME = timedelta(days=1, hours=2)` is 93600 seconds and
`REFRESH_TOKEN_LIFETIME = timedelta(days=7)` is 604800 seconds.
No other key is present in the dictionary. -/
def TOKEN_EXPIRE : List (String × ConfigVal) :=
  [("ACCESS_TOKEN_LIFETIME", .duration 93600),
   ("REFRESH_TOKEN_LIFETIME", .duration 604800),
   ("AUTH_HEADER_TYPES", .headerTypes ["JWT"])]

/-- Dictionary lookup `TOKEN_EXPIRE[k]`; `none` models a Python `KeyError`. -/
def tokenExpireGet (k : String) : Option ConfigVal :=
  (TOKEN_EXPIRE.find? (fun kv => kv.1 == k)).map (fun kv => kv.2)

/-! ## utils/aes.py — token encryption pipeline

`encrypt_token` derives an AES-256 key (PBKDF2 of the module secret and a
per-process random salt, abstracted here as the `key` parameter), draws a
fresh random 16-byte IV (`os.urandom(16)`, the `iv` parameter), space-pads
the input to 112 characters, AES-256-CBC encrypts it, base64-encodes
IV ++ ciphertext and strips every non-alphanumeric character. -/

/-- Multiplication by x in GF(2^8) modulo the AES polynomial 0x11B. -/
def xtime (a : Nat) : Nat :=
  if a &&& 0x80 ≠ 0 then ((a <<< 1) ^^^ 0x1B) &&& 0xFF else (a <<< 1) &&& 0xFF

/-- GF(2^8) product, 8 shift-and-add steps. -/
def gmulAux : Nat → Nat → Nat → Nat
  | 0, _, _ => 0
  | n + 1, a, b => (if b % 2 == 1 then a else 0) ^^^ gmulAux n (xtime a) (b / 2)

/-- GF(2^8) multiplication used by MixColumns and the S-box. -/
def gmul (a b : Nat) : Nat := gmulAux 8 a b

/-- GF(2^8) power. -/
def gpow (a : Nat) : Nat → Nat
  | 0 => 1
  | n + 1 => gmul a (gpow a n)

/-- Rotate an 8-bit value left by n bits. -/
def rotl8 (x n : Nat) : Nat := ((x <<< n) ||| (x >>> (8 - n))) % 256

/-- The AES S-box affine transformation. -/
def affineMap (x : Nat) : Nat :=
  x ^^^ rotl8 x 1 ^^^ rotl8 x 2 ^^^ rotl8 x 3 ^^^ rotl8 x 4 ^^^ 0x63

/-- The AES S-box: affine transform of the GF(2^8) inverse (b^254). -/
def sbox (b : Nat) : Nat := affineMap (if b == 0 then 0 else gpow b 254)

/-- Pointwise xor of two byte lists. -/
def xorBytes (a b : List Nat) : List Nat := List.zipWith (fun x y => x ^^^ y) a b

/-- SubBytes on a 16-byte state. -/
def subBytes (st : List Nat) : List Nat := st.map sbox

/-- ShiftRows on a 16-byte column-major state. -/
def shiftRows (st : List Nat) : List Nat :=
  [0, 5, 10, 15, 4, 9, 14, 3, 8, 13, 2, 7, 12, 1, 6, 11].map (fun i => st.getD i 0)

/-- MixColumns on one column. -/
def mixCol (s0 s1 s2 s3 : Nat) : List Nat :=
  [gmul 2 s0 ^^^ gmul 3 s1 ^^^ s2 ^^^ s3,
   s0 ^^^ gmul 2 s1 ^^^ gmul 3 s2 ^^^ s3,
   s0 ^^^ s1 ^^^ gmul 2 s2 ^^^ gmul 3 s3,
   gmul 3 s0 ^^^ s1 ^^^ s2 ^^^ gmul 2 s3]

/-- MixColumns on the full state. -/
def mixColumns : List Nat → List Nat
  | s0 :: s1 :: s2 :: s3 :: rest => mixCol s0 s1 s2 s3 ++ mixColumns rest
  | _ => []

/-- SubWord of the AES key schedule. -/
def subWord (w : List Nat) : List Nat := w.map sbox

/-- RotWord of the AES key schedule. -/
def rotWord : List Nat → List Nat
  | a :: rest => rest ++ [a]
  | [] => []

/-- Iterated xtime, giving the AES round constants. -/
def powx : Nat → Nat
  | 0 => 1
  | n + 1 => xtime (powx n)

/-- Group a byte list into 4-byte words. -/
def toWords : List Nat → List (List Nat)
  | a :: b :: c :: d :: rest => [a, b, c, d] :: toWords rest
  | _ => []

/-- Group a word list into 16-byte round keys. -/
def words4ToKeys : List (List Nat) → List (List Nat)
  | w0 :: w1 :: w2 :: w3 :: rest => (w0 ++ w1 ++ w2 ++ w3) :: words4ToKeys rest
  | _ => []

/-- AES-256 key schedule word expansion (Nk = 8, producing 60 words). -/
def expandWords (ws : List (List Nat)) (i : Nat) : List (List Nat) :=
  if i ≥ 60 then ws
  else
    let t0 := ws.getD (i - 1) []
    let t1 :=
      if i % 8 == 0 then
        xorBytes (subWord (rotWord t0)) [powx (i / 8 - 1), 0, 0, 0]
      else if i % 8 == 4 then subWord t0
      else t0
    expandWords (ws ++ [xorBytes (ws.getD (i - 8) []) t1]) (i + 1)
termination_by 60 - i

/-- AES-256 key expansion: 15 round keys of 16 bytes. -/
def keyExpansion (key : List Nat) : List (List Nat) :=
  words4ToKeys (expandWords (toWords key) 8)

/-- The middle and final AES rounds, consuming the remaining round keys. -/
def aesRounds : List (List Nat) → List Nat → List Nat
  | [], st => st
  | [rkLast], st => xorBytes (shiftRows (subBytes st)) rkLast
  | rk :: rest, st => aesRounds rest (xorBytes (mixColumns (shiftRows (subBytes st))) rk)

/-- AES block encryption given the expanded round keys. -/
def aesEncryptBlock (rks : List (List Nat)) (block : List Nat) : List Nat :=
  match rks with
  | [] => block
  | rk0 :: rest => aesRounds rest (xorBytes block rk0)

/-- CBC chaining over 16-byte blocks. -/
def cbcBlocks (ks : List (List Nat)) (prev : List Nat) (pt : List Nat) : List Nat :=
  match pt with
  | [] => []
  | b :: rest =>
    let c := aesEncryptBlock ks (xorBytes prev (List.take 16 (b :: rest)))
    c ++ cbcBlocks ks c (List.drop 16 (b :: rest))
termination_by pt.length
decreasing_by simp; omega

/-- AES-256-CBC encryption; `none` models the exception the cryptography
library raises when the key or IV have the wrong size or the data is not
block aligned. -/
def aesCbcEncrypt (key iv pt : List Nat) : Option (List Nat) :=
  if key.length == 32 && iv.length == 16 && pt.length % 16 == 0 then
    some (cbcBlocks (keyExpansion key) iv pt)
  else none

/-- The base64 alphabet. -/
def b64chars : List Char :=
  "ABCDEFGHIJKLMNOPQRSTUVWXYZabcdefghijklmnopqrstuvwxyz0123456789+/".toList

/-- Character of a 6-bit group. -/
def b64char (n : Nat) : Char := b64chars.getD n 'A'

/-- Standard base64 encoding of a byte list (`base64.b64encode`). -/
def b64encodeList : List Nat → List Char
  | x :: y :: z :: rest =>
    let n := x * 65536 + y * 256 + z
    b64char (n / 262144 % 64) :: b64char (n / 4096 % 64) ::
      b64char (n / 64 % 64) :: b64char (n % 64) :: b64encodeList rest
  | [x, y] =>
    let n := x * 65536 + y * 256
    [b64char (n / 262144 % 64), b64char (n / 4096 % 64), b64char (n / 64 % 64), '=']
  | [x] =>
    let n := x * 65536
    [b64char (n / 262144 % 64), b64char (n / 4096 % 64), '=', '=']
  | [] => []

/-- Test of `re.sub(r'[^a-zA-Z0-9]', '', ...)`: keep only alphanumerics. -/
def isAlnumAZ (c : Char) : Bool :=
  (decide ('a' ≤ c) && decide (c ≤ 'z')) ||
  (decide ('A' ≤ c) && decide (c ≤ 'Z')) ||
  (decide ('0' ≤ c) && decide (c ≤ '9'))

/-- Strip every non-alphanumeric character. -/
def sanitize (cs : List Char) : List Char := cs.filter isAlnumAZ

/-- `str.ljust(n)`: pad on the right with spaces to length n. -/
def ljust (s : String) (n : Nat) : String :=
  s ++ String.mk (List.replicate (n - s.length) ' ')

/-- Bytes of an ASCII string (`str.encode()`). -/
def strBytes (s : String) : List Nat := s.toList.map Char.toNat

/-- utils/aes.py `encrypt_token`: pad the token to 112 characters,
AES-256-CBC encrypt it under a fresh random 16-byte IV, base64-encode
IV ++ ciphertext, and strip non-alphanumeric characters.  The PBKDF2-derived
key (from the module secret and the per-process random salt) is the `key`
parameter; the random IV is the `iv` parameter. -/
def encrypt_token (key iv : List Nat) (token : String) : Option String :=
  match aesCbcEncrypt key iv (strBytes (ljust token 112)) with
  | none => none
  | some ct => some (String.mk (sanitize (b64encodeList (iv ++ ct))))

/-! ## models/auth/user.py and models/auth/token.py — data model -/

/-- models/auth/user.py `User`: the columns consulted by the auth core.
`permissions` holds the names of the user's Permission records (the
many-to-many relationship; only names are ever consulted). -/
structure User where
  id : Nat
  email : String
  is_active : Bool
  is_superuser : Bool
  is_admin : Bool
  is_staffuser : Bool
  permissions : List String
deriving DecidableEq

/-- models/auth/token.py `Token`: one bearer credential pair. -/
structure Token where
  id : Nat
  user_id : Nat
  access_token : String
  refresh_token : String
  is_active : Bool
  created_at : Nat
  access_expires_at : Nat
  refresh_expires_at : Nat
deriving DecidableEq

/-- models/auth/token.py `Token.__init__` plus the column defaults:
encrypt two fresh raw random values (`uuid4().hex + uuid4().hex`, the
`rawA`/`rawR` parameters, each encrypted under its own fresh IV) and set
both expiries to now plus the configured lifetimes.  `tid` models the
random uuid primary key; `is_active` defaults to True and `created_at`
defaults to now.  `none` models an exception escaping the constructor
(encryption failure or a missing configuration key). -/
def Token.init (tid user_id : Nat) (key ivA ivR : List Nat) (rawA rawR : String)
    (now : Nat) : Option Token :=
  match encrypt_token key ivA rawA, encrypt_token key ivR rawR,
      tokenExpireGet "ACCESS_TOKEN_LIFETIME", tokenExpireGet "REFRESH_TOKEN_LIFETIME" with
  | some a, some r, some (.duration al), some (.duration rl) =>
    some { id := tid, user_id := user_id, access_token := a, refresh_token := r,
           is_active := true, created_at := now,
           access_expires_at := now + al, refresh_expires_at := now + rl }
  | _, _, _, _ => none

/-- Errors escaping `Token.refresh`. -/
inductive RefreshErr where
  | valueErrorExpired
  | cryptoError
  | keyError (k : String)
deriving DecidableEq

/-- models/auth/token.py `Token.refresh`:
raise ValueError if the refresh expiry has passed (reading
`is_refresh_expired` also deactivates such a token); otherwise encrypt a
fresh raw value as the new access token, set a new access expiry from the
configured lifetime, and then consult
`TOKEN_EXPIRE["REFRESH_TOKEN_RENEWAL_THRESHOLD"]` to decide whether to
extend the refresh expiry.  Dictionary lookups go through `tokenExpireGet`;
a missing key is a Python KeyError, modelled as `.keyError`.  The returned
token carries every mutation performed before the exception. -/
def Token.refresh (t : Token) (key iv : List Nat) (raw : String) (now : Nat) :
    Token × Except RefreshErr Unit :=
  if now > t.refresh_expires_at then
    ({ t with is_active := false }, .error .valueErrorExpired)
  else
    match encrypt_token key iv raw with
    | none => (t, .error .cryptoError)
    | some newAccess =>
      match tokenExpireGet "ACCESS_TOKEN_LIFETIME" with
      | some (.duration al) =>
        let t1 := { t with access_token := newAccess, access_expires_at := now + al }
        match tokenExpireGet "REFRESH_TOKEN_RENEWAL_THRESHOLD" with
        | some (.duration th) =>
          if t.refresh_expires_at - now < th then
            match tokenExpireGet "REFRESH_TOKEN_LIFETIME" with
            | some (.duration rl) => ({ t1 with refresh_expires_at := now + rl }, .ok ())
            | _ => (t1, .error (.keyError "REFRESH_TOKEN_LIFETIME"))
          else (t1, .ok ())
        | _ => (t1, .error (.keyError "REFRESH_TOKEN_RENEWAL_THRESHOLD"))
      | _ => ({ t with access_token := newAccess }, .error (.keyError "ACCESS_TOKEN_LIFETIME"))

/-! ## middleware/permission.py — declarative permission checks -/

/-- middleware/permission.py `PermissionDeniedReason`. -/
inductive PermReason where
  | authenticationRequired
  | adminRequired
  | superuserRequired
  | staffRequired
  | permissionMissing
  | ownershipRequired
  | accessDenied
deriving DecidableEq

/-- middleware/permission.py `PermissionDenied`: reason, detail message and
(for PERMISSION_MISSING) the list of missing permission names. -/
structure PermDenied where
  reason : PermReason
  detail : String
  missing_permissions : List String
deriving DecidableEq

/-- middleware/permission.py `HasPermission.has_permission`:
no user raises AUTHENTICATION_REQUIRED; superusers bypass the check;
otherwise the permissions of `required_permissions` absent from the user's
permission-name set are collected in request order and a non-empty list
raises PERMISSION_MISSING carrying exactly that list. -/
def hasPermission (required_permissions : List String) (user : Option User) :
    Except PermDenied Bool :=
  match user with
  | none =>
    .error { reason := .authenticationRequired,
             detail := "Authentication required. Please log in to access this resource.",
             missing_permissions := [] }
  | some u =>
    if u.is_superuser then .ok true
    else
      let missing := required_permissions.filter (fun p => !(u.permissions.contains p))
      if missing.isEmpty then .ok true
      else
        .error { reason := .permissionMissing,
                 detail := "Missing required permissions: " ++ String.intercalate ", " missing,
                 missing_permissions := missing }

/-! ## middleware/unified_auth_middleware.py — unified auth middleware

The middleware is modelled as a pure function of the request, the exempt
path registry, the user and token tables, and the current time.  It returns
the outcome (pass the request to the handler with an attached identity,
redirect, or JSON error) together with the updated token table and session.
-/

/-- The session cookie contents consulted by the middleware: the generic
`user_id` key and the `admin_user_id` key (already parsed; a value a
`uuid.UUID` call would reject reaches the same fall-through as an unknown
user). -/
structure SessionData where
  user_id : Option Nat
  admin_user_id : Option Nat
deriving DecidableEq

/-- The request data consulted by the middleware. -/
structure RequestData where
  path : String
  authorization : Option String
  session : SessionData
deriving DecidableEq

/-- The observable outcome of the middleware for one request:
`next u` means the request reached `call_next` with `request.state.user = u`;
otherwise a redirect or a JSON error response was returned. -/
inductive Outcome where
  | next (user : Option User)
  | redirect (url : String) (status : Nat)
  | jsonError (status : Nat) (detail : String)
deriving DecidableEq

/-- `AuthRegistry._exempt_paths`: the baseline literal set. -/
def exemptPathsBaseline : List String :=
  ["/admin/login", "/docs#/default/read_item_items__item_id__get/", "/static",
   "/favicon.ico", "/admin/static", "/api/auth/register/",
   "/api/auth/login/", "/api/auth/access/token/"]

/-- `str.startswith`: prefix test on the character sequence. -/
def startsWith (s e : String) : Bool := e.data.isPrefixOf s.data

/-- `UnifiedAuthMiddleware._is_path_exempt`: true when the path equals or
starts with a registered exempt path.  `exempts` is the current registry
content (the baseline plus any paths registered at runtime). -/
def is_path_exempt (exempts : List String) (path : String) : Bool :=
  exempts.any (fun e => path == e || startsWith path e)

/-- `UnifiedAuthMiddleware._get_user_from_session`: read `user_id` falling
back to `admin_user_id`, then look the user up requiring `is_active`. -/
def get_user_from_session (s : SessionData) (users : List User) : Option User :=
  match s.user_id <|> s.admin_user_id with
  | none => none
  | some uid => users.find? (fun u => u.id == uid && u.is_active)

/-- `UnifiedAuthMiddleware._handle_admin_auth`: require `admin_user_id` in
the session and an active matching user; on failure pop the session key
(when it was present but invalid) and redirect to the login page. -/
def handle_admin_auth (sess : SessionData) (users : List User) : Outcome × SessionData :=
  match sess.admin_user_id with
  | none => (.redirect "/admin/login" 302, sess)
  | some uid =>
    match users.find? (fun u => u.id == uid && u.is_active) with
    | none => (.redirect "/admin/login" 302, { sess with admin_user_id := none })
    | some u => (.next (some u), sess)

/-- Result of `_validate_api_token`: the resolved user or a JSON error. -/
inductive ApiAuthResult where
  | ok (user : User)
  | jsonError (status : Nat) (detail : String)
deriving DecidableEq

/-- Deactivate the first stored token whose access string matches
(the ORM mutation `token_entry.is_active = False` plus commit). -/
def deactivateFirst : List Token → String → List Token
  | [], _ => []
  | t :: ts, s =>
    if t.access_token == s then { t with is_active := false } :: ts
    else t :: deactivateFirst ts s

/-- The body of `UnifiedAuthMiddleware._validate_api_token` after header
extraction: look the token up by access string (401 if absent), then check
expiry (`now > access_expires_at`), deactivating an expired token that is
still active, then check `is_active`, then resolve the owning user
requiring `is_active`.  Returns the result and the updated token table. -/
def validateAccessToken (access_token : String) (tokens : List Token)
    (users : List User) (now : Nat) : ApiAuthResult × List Token :=
  match tokens.find? (fun t => t.access_token == access_token) with
  | none => (.jsonError 401 "Invalid or non-existent token", tokens)
  | some token_entry =>
    if now > token_entry.access_expires_at then
      (.jsonError 401 "Access token has expired",
       if token_entry.is_active then deactivateFirst tokens access_token else tokens)
    else if !token_entry.is_active then
      (.jsonError 401 "Token is inactive", tokens)
    else
      match users.find? (fun u => u.id == token_entry.user_id && u.is_active) with
      | none => (.jsonError 401 "User not found or inactive", tokens)
      | some user => (.ok user, tokens)

/-- `UnifiedAuthMiddleware._validate_api_token`: require an Authorization
header of the form `"<type> <token>"` where `<type>` is
`TOKEN_EXPIRE["AUTH_HEADER_TYPES"][0]`, then validate the extracted token.
A missing configuration entry would escape as a server error. -/
def validateApiToken (auth_header : Option String) (tokens : List Token)
    (users : List User) (now : Nat) : ApiAuthResult × List Token :=
  match auth_header with
  | none => (.jsonError 401 "Authentication required", tokens)
  | some h =>
    match tokenExpireGet "AUTH_HEADER_TYPES" with
    | some (.headerTypes (ht :: _)) =>
      if startsWith h (ht ++ " ") then
        validateAccessToken ((h.drop (ht.length + 1)).trim) tokens users now
      else (.jsonError 401 "Invalid authentication format", tokens)
    | _ => (.jsonError 500 "Authentication error", tokens)

/-- `UnifiedAuthMiddleware._handle_api_auth`: validate the bearer token and
either pass through with the resolved user attached or return the error
(`request.state.user` is None when this runs, so the session short-circuit
inside it is vacuous). -/
def handle_api_auth (auth_header : Option String) (tokens : List Token)
    (users : List User) (now : Nat) : Outcome × List Token :=
  match validateApiToken auth_header tokens users now with
  | (.ok u, ts) => (.next (some u), ts)
  | (.jsonError c d, ts) => (.jsonError c d, ts)

/-- `UnifiedAuthMiddleware.dispatch`: state machine per request, in order:
1. pass exempt paths through untouched;
2. attach a session-resolved active user and pass through, for any path;
3. under `/admin`, require an admin session, else redirect to login;
4. otherwise validate the bearer token. -/
def dispatch (req : RequestData) (exempts : List String) (users : List User)
    (tokens : List Token) (now : Nat) : Outcome × List Token × SessionData :=
  if is_path_exempt exempts req.path then (.next none, tokens, req.session)
  else
    match get_user_from_session req.session users with
    | some session_user => (.next (some session_user), tokens, req.session)
    | none =>
      if startsWith req.path "/admin" then
        let (o, s) := handle_admin_auth req.session users
        (o, tokens, s)
      else
        let (o, ts) := handle_api_auth req.authorization tokens users now
        (o, ts, req.session)

/-! ## queryset/auth/user_route.py — access-token exchange endpoint -/

/-- Result of a route handler: a JSON payload or an HTTPException. -/
inductive EndpointResult where
  | ok (status : Nat) (access_token : String)
  | httpError (status : Nat) (detail : String)
deriving DecidableEq

/-- queryset/auth/user_route.py `user_access_token`
(`GET /api/auth/access/token/`): look the token up by refresh string and
return its stored access token; 404 when absent. -/
def userAccessToken (refresh_token : String) (tokens : List Token) : EndpointResult :=
  match tokens.find? (fun t => t.refresh_token == refresh_token) with
  | none => .httpError 404 "Refresh token not found"
  | some token_entry => .ok 200 token_entry.access_token

/-! ## Concrete instances used by witnesses and counterexamples -/

/-- A 16-byte IV of zero bytes (one possible draw of `os.urandom(16)`). -/
def ivZeros : List Nat := [0, 0, 0, 0, 0, 0, 0, 0, 0, 0, 0, 0, 0, 0, 0, 0]

/-- A 16-byte IV of 0x04 bytes (another possible draw of `os.urandom(16)`). -/
def ivFours : List Nat := [4, 4, 4, 4, 4, 4, 4, 4, 4, 4, 4, 4, 4, 4, 4, 4]

/-- A 32-byte key of zero bytes (one possible derived AES key). -/
def keyZeros : List Nat := List.replicate 32 0

/-- A stored token that is deactivated and whose access expiry has passed. -/
def cexToken : Token :=
  { id := 1, user_id := 1, access_token := "AT", refresh_token := "RT",
    is_active := false, created_at := 0,
    access_expires_at := 5, refresh_expires_at := 100 }

/-- A stored token that is active and unexpired. -/
def okToken : Token :=
  { id := 2, user_id := 7, access_token := "AT2", refresh_token := "RT2",
    is_active := true, created_at := 0,
    access_expires_at := 100, refresh_expires_at := 200 }

/-- The active owner of `okToken`. -/
def okUser : User :=
  { id := 7, email := "owner@example.com", is_active := true,
    is_superuser := false, is_admin := false, is_staffuser := false,
    permissions := [] }

/-- An active user reachable through a session. -/
def sessUser : User :=
  { id := 3, email := "sess@example.com", is_active := true,
    is_superuser := false, is_admin := false, is_staffuser := false,
    permissions := [] }

/-- An active non-superuser holding exactly permission "a". -/
def permUser : User :=
  { id := 4, email := "perm@example.com", is_active := true,
    is_superuser := false, is_admin := false, is_staffuser := false,
    permissions := ["a"] }

/-- The denial raised for `permUser` when permissions "a" and "b" are required. -/
def permDeniedEx : PermDenied :=
  { reason := .permissionMissing,
    detail := "Missing required permissions: b",
    missing_permissions := ["b"] }

/-- A token whose refresh expiry is still in the future at time 0. -/
def freshTok : Token :=
  { id := 5, user_id := 7, access_token := "ATF", refresh_token := "RTF",
    is_active := true, created_at := 0,
    access_expires_at := 93600, refresh_expires_at := 604800 }

/-- A token whose refresh expiry has passed at time 11. -/
def staleTok : Token :=
  { id := 6, user_id := 7, access_token := "ATS", refresh_token := "RTS",
    is_active := true, created_at := 0,
    access_expires_at := 5, refresh_expires_at := 10 }

/-! ## Theorems -/

/-- Claim C6: `isExempt(p)` is true exactly when `p` equals or starts with a
registered exempt path, and an exempt path passes through the middleware
untouched: no identity is attached, the token table is unmodified, and the
result does not depend on the user, token or session stores at all. -/
theorem isExempt_iff_and_pass_through (E : List String) (p : String) :
    (is_path_exempt E p = true ↔ ∃ e ∈ E, p = e ∨ e.data <+: p.data) ∧
    (is_path_exempt E p = true →
      ∀ (auth : Option String) (sess : SessionData) (users : List User)
        (tokens : List Token) (now : Nat),
        dispatch { path := p, authorization := auth, session := sess } E users tokens now =
          (.next none, tokens, sess)) := by
  constructor
  · simp [is_path_exempt, List.any_eq_true, startsWith, List.isPrefixOf_iff_prefix]
  · intro h auth sess users tokens now
    simp [dispatch, h]

/-- Witness for C6 at a concrete store: `/static/app.css` is exempt under the
registry `["/static"]` and passes through with no identity. -/
theorem isExempt_iff_and_pass_through_witness :
    dispatch { path := "/static/app.css", authorization := none,
               session := { user_id := none, admin_user_id := none } }
        ["/static"] [sessUser] [okToken] 0 =
      (.next none, [okToken], { user_id := none, admin_user_id := none }) :=
  (isExempt_iff_and_pass_through ["/static"] "/static/app.css").2 (by decide)
    none { user_id := none, admin_user_id := none } [sessUser] [okToken] 0

/-- Claim C3: the middleware evaluates its steps in strict order.  An exempt
path passes through before any credential check (independently of every
store), and on a non-exempt path a session that resolves to an active user
attaches that identity and passes through whatever the path is, before the
admin-prefix/API branching. -/
theorem dispatch_ordering (req : RequestData) (E : List String) (users : List User)
    (tokens : List Token) (now : Nat) :
    (is_path_exempt E req.path = true →
      dispatch req E users tokens now = (.next none, tokens, req.session)) ∧
    (is_path_exempt E req.path = false →
      ∀ u, get_user_from_session req.session users = some u →
        dispatch req E users tokens now = (.next (some u), tokens, req.session)) := by
  constructor
  · intro h
    simp [dispatch, h]
  · intro h u hu
    simp [dispatch, h, hu]

/-- Witness for C3: a session-carrying request to a non-admin API path is
passed through with the session user attached. -/
theorem dispatch_ordering_witness :
    dispatch { path := "/api/orders/", authorization := none,
               session := { user_id := some 3, admin_user_id := none } }
        exemptPathsBaseline [sessUser] [okToken] 0 =
      (.next (some sessUser), [okToken], { user_id := some 3, admin_user_id := none }) :=
  (dispatch_ordering
      { path := "/api/orders/", authorization := none,
        session := { user_id := some 3, admin_user_id := none } }
      exemptPathsBaseline [sessUser] [okToken] 0).2 (by decide) sessUser (by decide)

/-- Claim C8: refreshing a token whose refresh expiry has passed always
raises the expiry error and mutates neither the access token string nor any
expiry. -/
theorem refresh_expired_rejects (t : Token) (key iv : List Nat) (raw : String)
    (now : Nat) (h : now > t.refresh_expires_at) :
    (Token.refresh t key iv raw now).2 = .error .valueErrorExpired ∧
    (Token.refresh t key iv raw now).1.access_token = t.access_token ∧
    (Token.refresh t key iv raw now).1.access_expires_at = t.access_expires_at ∧
    (Token.refresh t key iv raw now).1.refresh_expires_at = t.refresh_expires_at := by
  simp [Token.refresh, h]

/-- Witness for C8 at a concrete expired token. -/
theorem refresh_expired_rejects_witness :
    (Token.refresh staleTok keyZeros ivZeros "raw" 11).2 = .error .valueErrorExpired ∧
    (Token.refresh staleTok keyZeros ivZeros "raw" 11).1.access_token = staleTok.access_token ∧
    (Token.refresh staleTok keyZeros ivZeros "raw" 11).1.access_expires_at = staleTok.access_expires_at ∧
    (Token.refresh staleTok keyZeros ivZeros "raw" 11).1.refresh_expires_at = staleTok.refresh_expires_at :=
  refresh_expired_rejects staleTok keyZeros ivZeros "raw" 11 (by decide)

/-- Claim C10: the access-token exchange endpoint returns the stored access
token of the first token matching the given refresh string, fails with 404
exactly when no stored token has that refresh string, and its result is
unchanged by any modification of the stored tokens that preserves the
refresh and access strings (so it inspects neither `is_active` nor either
expiry). -/
theorem userAccessToken_spec (s : String) (tokens : List Token) :
    (∀ t, tokens.find? (fun x => x.refresh_token == s) = some t →
      userAccessToken s tokens = .ok 200 t.access_token) ∧
    (userAccessToken s tokens = .httpError 404 "Refresh token not found" ↔
      ∀ t ∈ tokens, t.refresh_token ≠ s) ∧
    (∀ f : Token → Token,
      (∀ t, (f t).refresh_token = t.refresh_token ∧ (f t).access_token = t.access_token) →
      userAccessToken s (tokens.map f) = userAccessToken s tokens) := by
  refine ⟨?_, ?_, ?_⟩
  · intro t h
    simp [userAccessToken, h]
  · cases hf : tokens.find? (fun x => x.refresh_token == s) with
    | none =>
      have hall : ∀ t ∈ tokens, t.refresh_token ≠ s := by
        intro t ht
        have := List.find?_eq_none.mp hf t ht
        simpa using this
      simp only [userAccessToken, hf]
      constructor
      · intro _
        exact hall
      · intro _
        trivial
    | some t =>
      have hmem := List.mem_of_find?_eq_some hf
      have hts : t.refresh_token = s := by simpa using List.find?_some hf
      simp only [userAccessToken, hf]
      constructor
      · intro h
        exact absurd h (by simp)
      · intro hall
        exact absurd hts (hall t hmem)
  · intro f hf
    induction tokens with
    | nil => rfl
    | cons t ts ih =>
      by_cases hc : (t.refresh_token == s) = true
      · have hc' : ((f t).refresh_token == s) = true := by
          rw [(hf t).1]; exact hc
        simp [userAccessToken, List.find?_cons_of_pos, hc, hc', (hf t).2]
      · have hc' : ¬ ((f t).refresh_token == s) = true := by
          rw [(hf t).1]; exact hc
        show userAccessToken s (List.map f (t :: ts)) = userAccessToken s (t :: ts)
        rw [List.map_cons]
        unfold userAccessToken
        rw [show List.find? (fun x => x.refresh_token == s) (f t :: List.map f ts) =
              List.find? (fun x => x.refresh_token == s) (List.map f ts) from
            List.find?_cons_of_neg _ hc',
          show List.find? (fun x => x.refresh_token == s) (t :: ts) =
              List.find? (fun x => x.refresh_token == s) ts from
            List.find?_cons_of_neg _ hc]
        exact ih

/-- Witness for C10: an inactive token whose expiries have both passed is
still exchanged for its stored access token. -/
theorem userAccessToken_spec_witness :
    userAccessToken "RT" [cexToken] = .ok 200 cexToken.access_token :=
  (userAccessToken_spec "RT" [cexToken]).1 cexToken (by decide)

/-- Claim C5: a PERMISSION_MISSING denial of `HasPermission.has_permission`
carries exactly the requested permissions absent from the user's
permission-name set, in the order they were requested: the carried list is
the order-preserving filter of the request, membership in it is equivalent
to being requested but not held, and it is a sublist of the request. -/
theorem hasPermission_missing_exact (required : List String) (u : User) (d : PermDenied)
    (h : hasPermission required (some u) = .error d)
    (hreason : d.reason = .permissionMissing) :
    d.missing_permissions = required.filter (fun p => !(u.permissions.contains p)) ∧
    (∀ p, p ∈ d.missing_permissions ↔ (p ∈ required ∧ p ∉ u.permissions)) ∧
    d.missing_permissions.Sublist required := by
  simp only [hasPermission] at h
  split at h
  · simp at h
  · split at h
    · simp at h
    · simp only [Except.error.injEq] at h
      subst h
      refine ⟨rfl, ?_, List.filter_sublist _⟩
      intro p
      simp [List.mem_filter]

/-- Witness for C5: requesting "a" and "b" from a user holding only "a"
denies with missing list exactly ["b"]. -/
theorem hasPermission_missing_exact_witness :
    permDeniedEx.missing_permissions =
      (["a", "b"].filter (fun p => !(permUser.permissions.contains p))) ∧
    (∀ p, p ∈ permDeniedEx.missing_permissions ↔ (p ∈ ["a", "b"] ∧ p ∉ permUser.permissions)) ∧
    permDeniedEx.missing_permissions.Sublist ["a", "b"] :=
  hasPermission_missing_exact ["a", "b"] permUser permDeniedEx (by rfl) (by rfl)

/-- Helper: `strBytes` preserves length. -/
theorem strBytes_length (s : String) : (strBytes s).length = s.length := by
  simp only [strBytes, List.length_map]
  rfl

/-- Helper: padding a string of at most 112 characters yields length 112. -/
theorem ljust_length (s : String) (h : s.length ≤ 112) : (ljust s 112).length = 112 := by
  have hmk : (String.mk (List.replicate (112 - s.length) ' ')).length = 112 - s.length := by
    show (List.replicate (112 - s.length) ' ').length = 112 - s.length
    simp
  simp only [ljust, String.length_append, hmk]
  omega

/-- Helper: on a well-sized key and IV and an input of at most 112
characters, `encrypt_token` succeeds and its output is the sanitized base64
encoding of the IV followed by the CBC ciphertext. -/
theorem encrypt_token_some (key iv : List Nat) (raw : String) (hk : key.length = 32)
    (hiv : iv.length = 16) (hr : raw.length ≤ 112) :
    encrypt_token key iv raw =
      some (String.mk (sanitize (b64encodeList
        (iv ++ cbcBlocks (keyExpansion key) iv (strBytes (ljust raw 112)))))) := by
  have hlen : (strBytes (ljust raw 112)).length % 16 = 0 := by
    rw [strBytes_length, ljust_length raw hr]
  simp [encrypt_token, aesCbcEncrypt, hk, hiv, hlen]

/-- Helper: the first 20 base64 characters of a byte list starting with the
all-zero IV are 20 letters A, independently of the remaining bytes. -/
theorem b64_ivZeros (ct : List Nat) :
    b64encodeList (ivZeros ++ ct) =
      ['A', 'A', 'A', 'A', 'A', 'A', 'A', 'A', 'A', 'A',
       'A', 'A', 'A', 'A', 'A', 'A', 'A', 'A', 'A', 'A'] ++ b64encodeList (0 :: ct) := rfl

/-- Helper: the first 20 base64 characters of a byte list starting with the
all-0x04 IV are "BAQE" five times, independently of the remaining bytes. -/
theorem b64_ivFours (ct : List Nat) :
    b64encodeList (ivFours ++ ct) =
      ['B', 'A', 'Q', 'E', 'B', 'A', 'Q', 'E', 'B', 'A',
       'Q', 'E', 'B', 'A', 'Q', 'E', 'B', 'A', 'Q', 'E'] ++ b64encodeList (4 :: ct) := rfl

/-- Helper: sanitization distributes over append. -/
theorem sanitize_append (a b : List Char) : sanitize (a ++ b) = sanitize a ++ sanitize b :=
  List.filter_append ..

/-- Helper: under any well-sized key, encrypting the same raw value under the
all-zero IV and under the all-0x04 IV yields different stored strings: the
sanitized output embeds the IV in its first 20 characters. -/
theorem encryptTokenIvNe (key : List Nat) (raw : String) (hk : key.length = 32)
    (hr : raw.length ≤ 112) :
    encrypt_token key ivZeros raw ≠ encrypt_token key ivFours raw := by
  rw [encrypt_token_some key ivZeros raw hk (by decide) hr,
    encrypt_token_some key ivFours raw hk (by decide) hr]
  intro h
  have h' := congrArg String.data (Option.some.inj h)
  simp only [b64_ivZeros, b64_ivFours] at h'
  rw [sanitize_append, sanitize_append] at h'
  rw [show sanitize (['A', 'A', 'A', 'A', 'A', 'A', 'A', 'A', 'A', 'A',
       'A', 'A', 'A', 'A', 'A', 'A', 'A', 'A', 'A', 'A']) =
      ['A', 'A', 'A', 'A', 'A', 'A', 'A', 'A', 'A', 'A',
       'A', 'A', 'A', 'A', 'A', 'A', 'A', 'A', 'A', 'A'] from rfl] at h'
  rw [show sanitize (['B', 'A', 'Q', 'E', 'B', 'A', 'Q', 'E', 'B', 'A',
       'Q', 'E', 'B', 'A', 'Q', 'E', 'B', 'A', 'Q', 'E']) =
      ['B', 'A', 'Q', 'E', 'B', 'A', 'Q', 'E', 'B', 'A',
       'Q', 'E', 'B', 'A', 'Q', 'E', 'B', 'A', 'Q', 'E'] from rfl] at h'
  simp at h'

/-- Claim C2 (amended): `encrypt_token` is randomized, not deterministic.
Each call draws a fresh random IV which is embedded in the stored string, so
encrypting the same raw value in two runs whose IVs differ (here the
all-zero and the all-0x04 draw) yields two different stored strings under
every well-sized key.  Lookup by stored value works because the stored
ciphertext itself is the opaque credential handed to clients, not because
encryption is deterministic. -/
theorem encrypt_token_not_deterministic (key : List Nat) (raw : String)
    (hk : key.length = 32) (hr : raw.length ≤ 112) :
    encrypt_token key ivZeros raw ≠ encrypt_token key ivFours raw :=
  encryptTokenIvNe key raw hk hr

/-- Counterexample to C2 as stated: encrypting the raw value "deadbeef"
twice (first run drawing the all-zero IV, second run drawing the all-0x04
IV, under the all-zero derived key) yields two different stored strings. -/
theorem encrypt_token_determinism_counterexample :
    encrypt_token keyZeros ivZeros "deadbeef" ≠ encrypt_token keyZeros ivFours "deadbeef" :=
  encryptTokenIvNe keyZeros "deadbeef" (by decide) (by decide)

/-- Witness for C2 (amended) at a concrete key and raw value. -/
theorem encrypt_token_not_deterministic_witness :
    keyZeros.length = 32 ∧ ("x9".length ≤ 112) ∧
    encrypt_token keyZeros ivZeros "x9" ≠ encrypt_token keyZeros ivFours "x9" :=
  ⟨by decide, by decide, encrypt_token_not_deterministic keyZeros "x9" (by decide) (by decide)⟩

/-- Claim C7: a freshly issued token has its creation time `now`, access
expiry exactly `now` plus the configured access lifetime (1 day 2 hours =
93600 s), refresh expiry exactly `now` plus the configured refresh lifetime
(7 days = 604800 s), and the access expiry strictly below the refresh
expiry. -/
theorem token_init_expiries (tid uid : Nat) (key ivA ivR : List Nat)
    (rawA rawR : String) (now : Nat) (hk : key.length = 32)
    (hA : ivA.length = 16) (hB : ivR.length = 16)
    (h1 : rawA.length ≤ 112) (h2 : rawR.length ≤ 112) :
    ∃ t, Token.init tid uid key ivA ivR rawA rawR now = some t ∧
      t.created_at = now ∧
      t.access_expires_at = now + 93600 ∧
      t.refresh_expires_at = now + 604800 ∧
      t.access_expires_at < t.refresh_expires_at ∧
      t.is_active = true := by
  have e1 := encrypt_token_some key ivA rawA hk hA h1
  have e2 := encrypt_token_some key ivR rawR hk hB h2
  have c1 : tokenExpireGet "ACCESS_TOKEN_LIFETIME" = some (.duration 93600) := rfl
  have c2 : tokenExpireGet "REFRESH_TOKEN_LIFETIME" = some (.duration 604800) := rfl
  rw [Token.init, e1, e2, c1, c2]
  exact ⟨_, rfl, rfl, rfl, rfl, by show now + 93600 < now + 604800; omega, rfl⟩

/-- Witness for C7 at concrete randomness and time. -/
theorem token_init_expiries_witness :
    ∃ t, Token.init 1 2 keyZeros ivZeros ivFours "a" "b" 5 = some t ∧
      t.created_at = 5 ∧
      t.access_expires_at = 5 + 93600 ∧
      t.refresh_expires_at = 5 + 604800 ∧
      t.access_expires_at < t.refresh_expires_at ∧
      t.is_active = true :=
  token_init_expiries 1 2 keyZeros ivZeros ivFours "a" "b" 5
    (by decide) (by decide) (by decide) (by decide) (by decide)

/-- Claim C4 (code bug): refreshing a token whose refresh expiry has not
passed always raises KeyError, because `Token.refresh` reads
`TOKEN_EXPIRE["REFRESH_TOKEN_RENEWAL_THRESHOLD"]` and settings.py defines no
such key.  The access token and its expiry have already been rotated when
the exception escapes, and the refresh expiry is never extended. -/
theorem refresh_raises_keyerror (t : Token) (key iv : List Nat) (raw : String)
    (now : Nat) (hexp : ¬ now > t.refresh_expires_at) (hk : key.length = 32)
    (hiv : iv.length = 16) (hr : raw.length ≤ 112) :
    (Token.refresh t key iv raw now).2 =
      .error (.keyError "REFRESH_TOKEN_RENEWAL_THRESHOLD") ∧
    (Token.refresh t key iv raw now).1.access_expires_at = now + 93600 ∧
    (Token.refresh t key iv raw now).1.refresh_expires_at = t.refresh_expires_at := by
  have e := encrypt_token_some key iv raw hk hiv hr
  have c1 : tokenExpireGet "ACCESS_TOKEN_LIFETIME" = some (.duration 93600) := rfl
  have c2 : tokenExpireGet "REFRESH_TOKEN_RENEWAL_THRESHOLD" = none := rfl
  rw [Token.refresh, if_neg hexp, e, c1, c2]
  exact ⟨rfl, rfl, rfl⟩

/-- Witness for C4 at a concrete unexpired token. -/
theorem refresh_raises_keyerror_witness :
    (Token.refresh freshTok keyZeros ivZeros "newraw" 0).2 =
      .error (.keyError "REFRESH_TOKEN_RENEWAL_THRESHOLD") ∧
    (Token.refresh freshTok keyZeros ivZeros "newraw" 0).1.access_expires_at = 0 + 93600 ∧
    (Token.refresh freshTok keyZeros ivZeros "newraw" 0).1.refresh_expires_at =
      freshTok.refresh_expires_at :=
  refresh_raises_keyerror freshTok keyZeros ivZeros "newraw" 0
    (by decide) (by decide) (by decide) (by decide)

/-- Helper: deactivating the stored token with a given access string makes
the next lookup by that access string observe `is_active = false`. -/
theorem find?_deactivateFirst (tokens : List Token) (s : String) :
    (deactivateFirst tokens s).find? (fun t => t.access_token == s) =
      (tokens.find? (fun t => t.access_token == s)).map
        (fun t => { t with is_active := false }) := by
  induction tokens with
  | nil => rfl
  | cons t ts ih =>
    by_cases hc : (t.access_token == s) = true
    · simp [deactivateFirst, hc, List.find?_cons]
    · simp [deactivateFirst, hc, List.find?_cons, ih]

/-- Claim C1 (amended): the API token-validation branch checks, in order,
token existence, then access expiry, then deactivation, then the owning
user.  An absent access string denies TOKEN_NOT_FOUND; an expired token
denies TOKEN_EXPIRED (even when it is also deactivated — expiry is checked
before inactivity) and as a side effect the next read of that token sees
`is_active = false`; a deactivated but unexpired token denies
TOKEN_INACTIVE; otherwise the owning active user is returned, or a missing
or inactive owner is denied (single combined USER_NOT_FOUND/USER_INACTIVE
message). -/
theorem validateAccess_branches (s : String) (tokens : List Token)
    (users : List User) (now : Nat) :
    (tokens.find? (fun t => t.access_token == s) = none →
      validateAccessToken s tokens users now =
        (.jsonError 401 "Invalid or non-existent token", tokens)) ∧
    (∀ t, tokens.find? (fun t => t.access_token == s) = some t →
      (now > t.access_expires_at →
        (validateAccessToken s tokens users now).1 =
          .jsonError 401 "Access token has expired" ∧
        ∀ t2, (validateAccessToken s tokens users now).2.find?
            (fun x => x.access_token == s) = some t2 → t2.is_active = false) ∧
      (¬ now > t.access_expires_at → t.is_active = false →
        validateAccessToken s tokens users now =
          (.jsonError 401 "Token is inactive", tokens)) ∧
      (¬ now > t.access_expires_at → t.is_active = true →
        (users.find? (fun x => x.id == t.user_id && x.is_active) = none →
          validateAccessToken s tokens users now =
            (.jsonError 401 "User not found or inactive", tokens)) ∧
        (∀ u, users.find? (fun x => x.id == t.user_id && x.is_active) = some u →
          validateAccessToken s tokens users now = (.ok u, tokens)))) := by
  refine ⟨?_, ?_⟩
  · intro h
    simp [validateAccessToken, h]
  · intro t hf
    refine ⟨?_, ?_, ?_⟩
    · intro hexp
      refine ⟨by simp [validateAccessToken, hf, hexp], ?_⟩
      intro t2 h2
      cases hA : t.is_active with
      | false =>
        simp [validateAccessToken, hf, hexp, hA] at h2
        exact h2 ▸ hA
      | true =>
        simp [validateAccessToken, hf, hexp, hA, find?_deactivateFirst] at h2
        rw [← h2]
    · intro hexp hina
      simp [validateAccessToken, hf, hexp, hina]
    · intro hexp hact
      refine ⟨?_, ?_⟩
      · intro h
        simp [validateAccessToken, hf, hexp, hact, h]
      · intro u hu
        simp [validateAccessToken, hf, hexp, hact, hu]

/-- Counterexample to C1 as stated: the stored token "AT" is deactivated,
yet because its access expiry has also passed the denial is TOKEN_EXPIRED,
not TOKEN_INACTIVE. -/
theorem validateAccess_inactive_expired_counterexample :
    cexToken.is_active = false ∧
    (validateAccessToken "AT" [cexToken] [] 6).1 =
      .jsonError 401 "Access token has expired" ∧
    (validateAccessToken "AT" [cexToken] [] 6).1 ≠
      .jsonError 401 "Token is inactive" := by
  decide

/-- Witness for C1 (amended): a valid active token with an active owner
resolves to that owner. -/
theorem validateAccess_branches_witness :
    validateAccessToken "AT2" [okToken] [okUser] 50 = (.ok okUser, [okToken]) :=
  (((validateAccess_branches "AT2" [okToken] [okUser] 50).2 okToken (by decide)).2.2
      (by decide) (by decide)).2 okUser (by decide)

/-- Helper: a user found by an `is_active`-filtered query is active. -/
theorem find_active_user {users : List User} {uid : Nat} {u : User}
    (h : users.find? (fun x => x.id == uid && x.is_active) = some u) :
    u.is_active = true := by
  have hp := List.find?_some h
  simp at hp
  exact hp.2

/-- Helper: a session-resolved user is active. -/
theorem get_user_from_session_active {s : SessionData} {users : List User} {u : User}
    (h : get_user_from_session s users = some u) : u.is_active = true := by
  unfold get_user_from_session at h
  cases ho : s.user_id <|> s.admin_user_id with
  | none => rw [ho] at h; cases h
  | some uid => rw [ho] at h; exact find_active_user h

/-- Helper: a user attached by the admin branch is active. -/
theorem handle_admin_auth_active {sess : SessionData} {users : List User} {u : User}
    {s2 : SessionData} (h : handle_admin_auth sess users = (.next (some u), s2)) :
    u.is_active = true := by
  unfold handle_admin_auth at h
  split at h
  · simp at h
  · split at h
    · simp at h
    · rename_i uid u0 hfind
      simp at h
      exact h.1 ▸ find_active_user hfind

/-- Helper: a user returned by the token-validation core is active. -/
theorem validateAccessToken_ok_active {s : String} {tokens : List Token}
    {users : List User} {now : Nat} {u : User} {ts : List Token}
    (h : validateAccessToken s tokens users now = (.ok u, ts)) :
    u.is_active = true := by
  unfold validateAccessToken at h
  cases hf : tokens.find? (fun t => t.access_token == s) with
  | none => rw [hf] at h; simp at h
  | some t =>
    rw [hf] at h
    by_cases hexp : now > t.access_expires_at
    · simp [hexp] at h
    · cases hA : t.is_active with
      | false => simp [hexp, hA] at h
      | true =>
        cases hu : users.find? (fun x => x.id == t.user_id && x.is_active) with
        | none => simp [hexp, hA, hu] at h
        | some u0 =>
          simp [hexp, hA, hu] at h
          exact h.1 ▸ find_active_user hu

/-- Helper: a user returned by the full header-parsing token validation is
active. -/
theorem validateApiToken_ok_active {ah : Option String} {tokens : List Token}
    {users : List User} {now : Nat} {u : User} {ts : List Token}
    (h : validateApiToken ah tokens users now = (.ok u, ts)) :
    u.is_active = true := by
  unfold validateApiToken at h
  cases ah with
  | none => simp at h
  | some hdr =>
    rw [show tokenExpireGet "AUTH_HEADER_TYPES" =
        some (ConfigVal.headerTypes ["JWT"]) from rfl] at h
    dsimp only at h
    split at h
    · exact validateAccessToken_ok_active h
    · simp at h

/-- Helper: a user attached by the API branch is active. -/
theorem handle_api_auth_active {ah : Option String} {tokens : List Token}
    {users : List User} {now : Nat} {u : User} {ts : List Token}
    (h : handle_api_auth ah tokens users now = (.next (some u), ts)) :
    u.is_active = true := by
  unfold handle_api_auth at h
  cases hv : validateApiToken ah tokens users now with
  | mk r ts2 =>
    rw [hv] at h
    cases r with
    | ok u0 =>
      simp at h
      exact h.1 ▸ validateApiToken_ok_active hv
    | jsonError c d => simp at h

/-- Claim C9: whenever the unified middleware attaches a user identity
(through the session branch, the admin branch or the bearer-token branch),
that user satisfies `is_active = true`; no branch ever attaches an inactive
user. -/
theorem dispatch_attaches_only_active (req : RequestData) (E : List String)
    (users : List User) (tokens : List Token) (now : Nat) (u : User)
    (ts : List Token) (ss : SessionData)
    (h : dispatch req E users tokens now = (.next (some u), ts, ss)) :
    u.is_active = true := by
  unfold dispatch at h
  cases he : is_path_exempt E req.path with
  | true => simp [he] at h
  | false =>
    simp only [he, Bool.false_eq_true, if_false] at h
    cases hs : get_user_from_session req.session users with
    | some su =>
      rw [hs] at h
      simp at h
      exact h.1 ▸ get_user_from_session_active hs
    | none =>
      rw [hs] at h
      by_cases hp : startsWith req.path "/admin" = true
      · rw [if_pos hp] at h
        cases haa : handle_admin_auth req.session users with
        | mk o s2 =>
          rw [haa] at h
          simp at h
          obtain ⟨h1, -, h3⟩ := h
          rw [h1] at haa
          exact handle_admin_auth_active haa
      · rw [if_neg hp] at h
        cases hapi : handle_api_auth req.authorization tokens users now with
        | mk o ts2 =>
          rw [hapi] at h
          simp at h
          obtain ⟨h1, -⟩ := h
          rw [h1] at hapi
          exact handle_api_auth_active hapi

/-- Witness for C9: a concrete dispatch that attaches a user, whose
activity follows by the invariant. -/
theorem dispatch_attaches_only_active_witness :
    dispatch { path := "/api/orders/", authorization := none,
               session := { user_id := none, admin_user_id := some 3 } }
        exemptPathsBaseline [sessUser] [] 0 =
      (.next (some sessUser), [], { user_id := none, admin_user_id := some 3 }) ∧
    sessUser.is_active = true :=
  ⟨by decide,
   dispatch_attaches_only_active
     { path := "/api/orders/", authorization := none,
       session := { user_id := none, admin_user_id := some 3 } }
     exemptPathsBaseline [sessUser] [] 0 sessUser []
     { user_id := none, admin_user_id := some 3 } (by decide)⟩
